import Mathlib

/-!
Shallow embedding of `src/main.ts` (ts-deno-mcp-poc): a session-routing layer
for JSON-RPC over HTTP.  The embedding models the session Registry
(`transports.streamable`), the bootstrap procedure (`setupSession`), the POST
router (`app.post("/mcp")`), the GET/DELETE handler (`handleSessionRequest`),
the transport close callback (`transport.onclose`), and the echo tool/resource
handlers.  The StreamableHTTPServerTransport from the SDK is an external
collaborator; its handshake behaviour (assigning the generated session id and
firing `onsessioninitialized` when an initialize request completes) is modelled
per the collaborator contract the code relies on.
-/

/-- JavaScript truthiness of a `string | undefined` value: `undefined` and the
empty string are falsy. Used for `sessionId && ...` checks in `main.ts`. -/
def jsTruthy : Option String → Bool
  | none => false
  | some s => s != ""

/-- Underlying string of a `string | undefined` value (only meaningful when
the value is truthy). -/
def strVal : Option String → String
  | none => ""
  | some s => s

/-- Registry lookup, modelling `transports.streamable[sessionId]` where the
registry maps session ids to transport instance ids. -/
def lookupReg : List (String × Nat) → String → Option Nat
  | [], _ => none
  | (k', v) :: rest, k => if k' = k then some v else lookupReg rest k

/-- Registry key removal, modelling `delete transports.streamable[sid]`. -/
def eraseReg : List (String × Nat) → String → List (String × Nat)
  | [], _ => []
  | (k', v) :: rest, k =>
    if k' = k then eraseReg rest k else (k', v) :: eraseReg rest k

/-- Registry insert, modelling `transports.streamable[sid] = transport`
(a JS record holds one binding per key, so insert overwrites). -/
def insertReg (l : List (String × Nat)) (k : String) (v : Nat) :
    List (String × Nat) :=
  (k, v) :: eraseReg l k

/-- Model of `crypto.randomUUID()` as a deterministic fresh-name supply
indexed by a counter held in the server state. -/
def freshUUID (n : Nat) : String := "uuid-" ++ toString n

/-- Capability set declared inside the synthesized initialize request
(`main.ts` lines 141-147): `roots.listChanged`, `sampling`, `elicitation`. -/
structure Capabilities where
  rootsListChanged : Bool
  sampling : Bool
  elicitation : Bool
deriving DecidableEq, Repr

/-- The `clientInfo` block of an initialize request. -/
structure ClientInfo where
  name : String
  title : String
  version : String
deriving DecidableEq, Repr

/-- The `params` of a JSON-RPC initialize request. -/
structure InitializeParams where
  protocolVersion : String
  capabilities : Capabilities
  clientInfo : ClientInfo
deriving DecidableEq, Repr

/-- A JSON-RPC request body as far as the router inspects it: either an
initialize-shaped request or some other payload (abstracted by a tag). -/
inductive JsonRpcBody where
  | initializeReq (id : Nat) (params : InitializeParams)
  | otherReq (tag : Nat)
deriving DecidableEq, Repr

/-- Model of the SDK's `isInitializeRequest` predicate (`main.ts` line 130). -/
def isInitializeRequest : JsonRpcBody → Bool
  | .initializeReq _ _ => true
  | .otherReq _ => false

/-- The fixed synthesized initialize request from `main.ts` lines 135-154. -/
def synthesizedInitialize : JsonRpcBody :=
  .initializeReq 1
    { protocolVersion := "2024-11-05"
      capabilities :=
        { rootsListChanged := true, sampling := true, elicitation := true }
      clientInfo :=
        { name := "ExampleClient"
          title := "Example Client Display Name"
          version := "1.0.0" } }

/-- Process-wide server state: the session Registry `transports.streamable`
(session id → transport instance id), a counter supplying fresh transport
instance ids, the fresh-UUID counter, and whether the shared `McpServer`
instance has been closed by `server.close()`. -/
structure ServerState where
  streamable : List (String × Nat)
  nextTid : Nat
  nextFresh : Nat
  serverClosed : Bool
deriving DecidableEq, Repr

/-- A StreamableHTTPServerTransport instance: its identity, the `sessionId`
argument captured by the `setupSession` closure (feeding the transport's
`sessionIdGenerator`), and the transport's own session id, assigned upon
successful handshake initialization (`undefined` before that). -/
structure Transport where
  tid : Nat
  suppliedId : Option String
  sessionId : Option String
deriving DecidableEq, Repr

/-- Model of `setupSession` (`main.ts` lines 74-111): constructs a fresh,
uninitialized transport whose `sessionIdGenerator` closes over the supplied
session id.  It does not touch the Registry: the Registry insert happens only
in the `onsessioninitialized` callback. -/
def setupSession (st : ServerState) (sessionId : Option String) :
    ServerState × Transport :=
  ({ st with nextTid := st.nextTid + 1 },
   { tid := st.nextTid, suppliedId := sessionId, sessionId := none })

/-- Model of the `sessionIdGenerator` closure
`() => sessionId || crypto.randomUUID()` (`main.ts` line 86): the supplied id
when truthy, otherwise a fresh UUID (consuming the fresh-name counter). -/
def sessionIdGenerator (st : ServerState) (supplied : Option String) :
    String × ServerState :=
  if jsTruthy supplied then (strVal supplied, st)
  else (freshUUID st.nextFresh, { st with nextFresh := st.nextFresh + 1 })

/-- Model of the `onsessioninitialized` callback (`main.ts` lines 87-91):
store the transport in the Registry under the session id. -/
def onsessioninitialized (st : ServerState) (sid : String) (t : Nat) :
    ServerState :=
  { st with streamable := insertReg st.streamable sid t }

/-- Model of `transport.onclose` (`main.ts` lines 99-105): if the transport
has a (truthy) session id, delete its Registry entry; then close the shared
`McpServer` via `server.close()`. -/
def onclose (st : ServerState) (transportSessionId : Option String) :
    ServerState :=
  let st1 :=
    if jsTruthy transportSessionId then
      { st with streamable := eraseReg st.streamable (strVal transportSessionId) }
    else st
  { st1 with serverClosed := true }

/-- Model of `transport.handleRequest` on a message, as far as it affects the
session Registry.  Per the transport collaborator contract the router relies
on: an initialize-shaped message arriving at a not-yet-initialized transport
completes the handshake — when initialization succeeds (`ok`) — generating
the session id via `sessionIdGenerator` and firing `onsessioninitialized`;
any other message leaves the session state untouched. -/
def deliver (st : ServerState) (t : Transport) (body : JsonRpcBody)
    (ok : Bool) : ServerState × Transport :=
  if isInitializeRequest body && t.sessionId.isNone && ok then
    let g := sessionIdGenerator st t.suppliedId
    (onsessioninitialized g.2 g.1 t.tid, { t with sessionId := some g.1 })
  else (st, t)

/-- HTTP responses the router itself produces: either the request is
delegated to a transport (which writes the protocol-level response) or the
router answers 404 with a plain-text body. -/
inductive HttpResponse where
  | delegated
  | notFound (body : String)
deriving DecidableEq, Repr

/-- Model of `app.post("/mcp")` (`main.ts` lines 114-182).  `proper404Client`
is the strict-client configuration flag, `header` the `mcp-session-id`
request header, `ok` whether asynchronous handshake initialization succeeds.
Returns the new server state, the router-level HTTP response, and the ordered
list of (transport id, message) deliveries made via `handleRequest`. -/
def handlePost (proper404Client : Bool) (st : ServerState)
    (header : Option String) (body : JsonRpcBody) (ok : Bool) :
    ServerState × HttpResponse × List (Nat × JsonRpcBody) :=
  match (if jsTruthy header then lookupReg st.streamable (strVal header)
         else none) with
  | some tid =>
    (st, .delegated, [(tid, body)])
  | none =>
    if jsTruthy header && proper404Client then
      (st, .notFound ("sessionId " ++ strVal header ++ " not found"), [])
    else if isInitializeRequest body then
      let p := setupSession st header
      ((deliver p.1 p.2 body ok).1, .delegated, [(p.2.tid, body)])
    else
      let p := setupSession st header
      let q := deliver p.1 p.2 synthesizedInitialize ok
      ((deliver q.1 q.2 body ok).1, .delegated,
       [(p.2.tid, synthesizedInitialize), (p.2.tid, body)])

/-- Model of `handleSessionRequest` (`main.ts` lines 185-203), shared by GET
and DELETE: 404 unless the header is truthy and matches a live Registry
entry, otherwise delegate to the matched transport. -/
def handleSessionRequest (st : ServerState) (header : Option String) :
    ServerState × HttpResponse × Option Nat :=
  match (if jsTruthy header then lookupReg st.streamable (strVal header)
         else none) with
  | some tid => (st, .delegated, some tid)
  | none => (st, .notFound "Invalid or missing session ID", none)

/-- One content element of a tool result. -/
structure TextContent where
  ctype : String
  text : String
deriving DecidableEq, Repr

/-- The echo tool handler (`main.ts` lines 47-57). -/
def echoToolHandler (message : String) : List TextContent :=
  [{ ctype := "text", text := "Tool echo: " ++ message }]

/-- One content element of a resource read result. -/
structure ResourceContents where
  uri : String
  text : String
deriving DecidableEq, Repr

/-- The href produced by the `echo://{message}` resource template. -/
def echoResourceHref (message : String) : String := "echo://" ++ message

/-- The echo resource handler (`main.ts` lines 59-72). -/
def echoResourceHandler (href : String) (message : String) :
    List ResourceContents :=
  [{ uri := href, text := "Resource echo: " ++ message }]

/-- An empty server state, as at process start. -/
def emptyState : ServerState :=
  { streamable := [], nextTid := 0, nextFresh := 0, serverClosed := false }

/-- A server state with two live sessions, for concrete witnesses. -/
def twoSessionState : ServerState :=
  { streamable := [("a", 0), ("b", 1)], nextTid := 2, nextFresh := 0,
    serverClosed := false }

/-- An example initialize-shaped client payload, distinct from the
synthesized one. -/
def exampleClientInit : JsonRpcBody :=
  .initializeReq 7
    { protocolVersion := "2025-06-18"
      capabilities :=
        { rootsListChanged := false, sampling := false, elicitation := false }
      clientInfo := { name := "RealClient", title := "Real", version := "2.0" } }

/-- Looking up an erased key yields nothing. -/
theorem lookupReg_eraseReg_self (l : List (String × Nat)) (k : String) :
    lookupReg (eraseReg l k) k = none := by
  induction l with
  | nil => rfl
  | cons p rest ih =>
    by_cases h : p.1 = k
    · simpa [eraseReg, h] using ih
    · simp [eraseReg, lookupReg, h, ih]

/-- Erasing a key that is absent leaves the registry unchanged. -/
theorem eraseReg_of_lookup_none (l : List (String × Nat)) (k : String)
    (h : lookupReg l k = none) : eraseReg l k = l := by
  induction l with
  | nil => rfl
  | cons p rest ih =>
    by_cases hk : p.1 = k
    · simp [lookupReg, hk] at h
    · simp [lookupReg, hk] at h
      simp [eraseReg, hk, ih h]

/-- Erasure is idempotent. -/
theorem eraseReg_idem (l : List (String × Nat)) (k : String) :
    eraseReg (eraseReg l k) k = eraseReg l k :=
  eraseReg_of_lookup_none _ _ (lookupReg_eraseReg_self l k)

/-- Erasing one key does not disturb lookups of another. -/
theorem lookupReg_eraseReg_ne (l : List (String × Nat)) (k k' : String)
    (h : k' ≠ k) : lookupReg (eraseReg l k) k' = lookupReg l k' := by
  induction l with
  | nil => rfl
  | cons p rest ih =>
    by_cases hk : p.1 = k
    · simp [eraseReg, lookupReg, hk, Ne.symm h, ih]
    · simp [eraseReg, lookupReg, hk, ih]

/-- The synthesized handshake payload is initialize-shaped. -/
theorem isInitializeRequest_synthesized :
    isInitializeRequest synthesizedInitialize = true := rfl

/-- C2: in strict-client mode, a POST whose session header is present (truthy)
but matches no Registry entry gets HTTP 404 with body
"sessionId <id> not found", the server state is unchanged (so no Transport is
created and the Registry is not mutated), and nothing is delivered. -/
theorem C2_strict_post_404 (st : ServerState) (sid : String)
    (body : JsonRpcBody) (ok : Bool) (h : sid ≠ "")
    (hmiss : lookupReg st.streamable sid = none) :
    handlePost true st (some sid) body ok =
      (st, .notFound ("sessionId " ++ sid ++ " not found"), []) := by
  simp [handlePost, jsTruthy, strVal, hmiss, h]

/-- Witness for C2 at a concrete state and header. -/
theorem C2_strict_post_404_witness :
    handlePost true emptyState (some "s1") (JsonRpcBody.otherReq 0) true =
      (emptyState, .notFound "sessionId s1 not found", []) :=
  C2_strict_post_404 emptyState "s1" (JsonRpcBody.otherReq 0) true
    (by decide) rfl

/-- C3: a GET or DELETE whose session header is missing (falsy) or unmatched
gets HTTP 404 with body "Invalid or missing session ID" and the state is
unchanged; a matched header delegates to the matched transport, also without
mutating the state. -/
theorem C3_session_request (st : ServerState) (header : Option String) :
    ((jsTruthy header = false ∨ lookupReg st.streamable (strVal header) = none) →
      handleSessionRequest st header =
        (st, .notFound "Invalid or missing session ID", none)) ∧
    (∀ tid, jsTruthy header = true →
      lookupReg st.streamable (strVal header) = some tid →
      handleSessionRequest st header = (st, .delegated, some tid)) := by
  constructor
  · rintro (hf | hmiss)
    · simp [handleSessionRequest, hf]
    · cases hft : jsTruthy header <;>
        simp [handleSessionRequest, hft, hmiss]
  · intro tid hft hfound
    simp [handleSessionRequest, hft, hfound]

/-- Witness for C3: a missing header 404s on the two-session state, and a
matched header delegates to the registered transport. -/
theorem C3_session_request_witness :
    handleSessionRequest twoSessionState none =
      (twoSessionState, .notFound "Invalid or missing session ID", none) ∧
    handleSessionRequest twoSessionState (some "b") =
      (twoSessionState, .delegated, some 1) :=
  ⟨(C3_session_request twoSessionState none).1 (Or.inl rfl),
   (C3_session_request twoSessionState (some "b")).2 1 rfl rfl⟩

/-- C5: a POST whose session header matches a live Registry entry is handled
by the very transport registered under that id, the payload is the only
delivery, and the server state (hence the Registry and its size) is
unchanged — in either client mode. -/
theorem C5_reuse_transport (strict : Bool) (st : ServerState) (sid : String)
    (tid : Nat) (body : JsonRpcBody) (ok : Bool) (h : sid ≠ "")
    (hfound : lookupReg st.streamable sid = some tid) :
    handlePost strict st (some sid) body ok =
      (st, .delegated, [(tid, body)]) := by
  simp [handlePost, jsTruthy, strVal, h, hfound]

/-- Witness for C5 at the two-session state. -/
theorem C5_reuse_transport_witness :
    handlePost true twoSessionState (some "a") (JsonRpcBody.otherReq 3) true =
      (twoSessionState, .delegated, [(0, JsonRpcBody.otherReq 3)]) :=
  C5_reuse_transport true twoSessionState "a" 0 (JsonRpcBody.otherReq 3) true
    (by decide) rfl

/-- C4: after the close event fires for a transport whose session id is the
(truthy) string `sid`, that id is absent from the Registry, and firing the
close event a second time is a no-op on the state (removal is idempotent, so
a second firing cannot fail). -/
theorem C4_close_removes (st : ServerState) (sid : String) (h : sid ≠ "") :
    lookupReg (onclose st (some sid)).streamable sid = none ∧
    onclose (onclose st (some sid)) (some sid) = onclose st (some sid) := by
  have ht : jsTruthy (some sid) = true := by
    simp [jsTruthy, h]
  constructor
  · simp [onclose, ht, strVal, lookupReg_eraseReg_self]
  · simp [onclose, ht, strVal, eraseReg_idem]

/-- Witness for C4 at the two-session state. -/
theorem C4_close_removes_witness :
    lookupReg (onclose twoSessionState (some "a")).streamable "a" = none ∧
    onclose (onclose twoSessionState (some "a")) (some "a") =
      onclose twoSessionState (some "a") :=
  C4_close_removes twoSessionState "a" (by decide)

/-- C10: whenever any single transport's close event fires, besides removing
that transport's own Registry entry the shared protocol-server instance is
closed (`serverClosed` becomes true), an effect reaching every other live
session; every other session's Registry entry itself is untouched. -/
theorem C10_close_shuts_shared_server (st : ServerState)
    (transportSessionId : Option String) :
    (onclose st transportSessionId).serverClosed = true ∧
    (∀ sid', sid' ≠ strVal transportSessionId →
      lookupReg (onclose st transportSessionId).streamable sid' =
        lookupReg st.streamable sid') := by
  constructor
  · cases hft : jsTruthy transportSessionId <;> simp [onclose, hft]
  · intro sid' hne
    cases hft : jsTruthy transportSessionId <;>
      simp [onclose, hft, lookupReg_eraseReg_ne _ _ _ hne]

/-- Witness for C10: closing session "a" of the two-session state closes the
shared server while leaving session "b" registered. -/
theorem C10_close_shuts_shared_server_witness :
    (onclose twoSessionState (some "a")).serverClosed = true ∧
    lookupReg (onclose twoSessionState (some "a")).streamable "b" = some 1 :=
  ⟨(C10_close_shuts_shared_server twoSessionState (some "a")).1,
   ((C10_close_shuts_shared_server twoSessionState (some "a")).2
      "b" (by decide)).trans (by decide)⟩

/-- C9: for every message, the echo tool answers content text
"Tool echo: " ++ message and the echo resource at echo://message answers
content text "Resource echo: " ++ message; concretely, "hello" yields
"Tool echo: hello" and "Resource echo: hello". -/
theorem C9_echo_round_trip (message : String) :
    (echoToolHandler message).map TextContent.text =
      ["Tool echo: " ++ message] ∧
    (echoResourceHandler (echoResourceHref message) message).map
        ResourceContents.text = ["Resource echo: " ++ message] ∧
    echoToolHandler "hello" =
      [{ ctype := "text", text := "Tool echo: hello" }] ∧
    echoResourceHandler (echoResourceHref "hello") "hello" =
      [{ uri := "echo://hello", text := "Resource echo: hello" }] := by
  refine ⟨rfl, rfl, rfl, ?_⟩
  simp [echoResourceHandler, echoResourceHref]

/-- C1 counterexample: in lenient mode, a POST carrying the unmatched session
header "s1" with an initialize-shaped payload delivers exactly the client's
own payload to the new transport — which is not the synthesized initialize
request — so the request is NOT preceded by a synthesized initialize. -/
theorem C1_counterexample :
    (handlePost false emptyState (some "s1") exampleClientInit true).2.2 =
      [(0, exampleClientInit)] ∧
    exampleClientInit ≠ synthesizedInitialize := by
  constructor
  · rfl
  · decide

/-- C1 amended: handshake-payload detection takes precedence regardless of
whether a session identifier was supplied — in lenient mode, a POST with a
supplied-but-unmatched identifier and an initialize-shaped payload takes the
direct bootstrap path: only the client's own payload is delivered (no
synthesized initialize precedes it), while the supplied identifier is still
the one the session gets registered under. -/
theorem C1_amended_direct_bootstrap (st : ServerState) (sid : String)
    (body : JsonRpcBody) (ok : Bool) (h : sid ≠ "")
    (hmiss : lookupReg st.streamable sid = none)
    (hinit : isInitializeRequest body = true) :
    (handlePost false st (some sid) body ok).2.2 = [(st.nextTid, body)] ∧
    (handlePost false st (some sid) body true).1.streamable =
      (sid, st.nextTid) :: st.streamable := by
  constructor
  · simp [handlePost, jsTruthy, strVal, h, hmiss, hinit, setupSession]
  · simp [handlePost, jsTruthy, strVal, h, hmiss, hinit, setupSession,
      deliver, sessionIdGenerator, onsessioninitialized, insertReg,
      eraseReg_of_lookup_none _ _ hmiss]

/-- Witness for the amended C1 at the empty state. -/
theorem C1_amended_direct_bootstrap_witness :
    (handlePost false emptyState (some "s1") exampleClientInit true).2.2 =
      [(0, exampleClientInit)] ∧
    (handlePost false emptyState (some "s1") exampleClientInit
      true).1.streamable = [("s1", 0)] :=
  C1_amended_direct_bootstrap emptyState "s1" exampleClientInit true
    (by decide) rfl rfl

/-- C6: in lenient mode, a POST with no matching Registry entry (header falsy
or unmatched) and a non-handshake payload bootstraps a new session: the
Registry grows by exactly one entry, and the transport receives first the
fixed synthesized initialize request (pinned protocol version "2024-11-05",
capabilities roots.listChanged/sampling/elicitation, placeholder client
identity) and afterwards the client's original payload. -/
theorem C6_lenient_synth_bootstrap (st : ServerState) (header : Option String)
    (body : JsonRpcBody)
    (hmiss : jsTruthy header = true →
      lookupReg st.streamable (strVal header) = none)
    (hfresh : lookupReg st.streamable (freshUUID st.nextFresh) = none)
    (hbody : isInitializeRequest body = false) :
    (handlePost false st header body true).2.2 =
      [(st.nextTid, synthesizedInitialize), (st.nextTid, body)] ∧
    (handlePost false st header body true).1.streamable.length =
      st.streamable.length + 1 ∧
    synthesizedInitialize = JsonRpcBody.initializeReq 1
      { protocolVersion := "2024-11-05"
        capabilities :=
          { rootsListChanged := true, sampling := true, elicitation := true }
        clientInfo :=
          { name := "ExampleClient"
            title := "Example Client Display Name"
            version := "1.0.0" } } := by
  refine ⟨?_, ?_, rfl⟩ <;>
  · cases hft : jsTruthy header
    · simp [handlePost, hft, hbody, setupSession, deliver,
        sessionIdGenerator, onsessioninitialized, insertReg,
        isInitializeRequest_synthesized,
        eraseReg_of_lookup_none _ _ hfresh]
    · simp [handlePost, hft, hbody, hmiss hft, setupSession, deliver,
        sessionIdGenerator, onsessioninitialized, insertReg,
        isInitializeRequest_synthesized,
        eraseReg_of_lookup_none _ _ (hmiss hft)]

/-- Witness for C6 at the empty state with no session header. -/
theorem C6_lenient_synth_bootstrap_witness :
    (handlePost false emptyState none (JsonRpcBody.otherReq 5) true).2.2 =
      [(0, synthesizedInitialize), (0, JsonRpcBody.otherReq 5)] ∧
    (handlePost false emptyState none
      (JsonRpcBody.otherReq 5) true).1.streamable.length = 1 ∧
    synthesizedInitialize = JsonRpcBody.initializeReq 1
      { protocolVersion := "2024-11-05"
        capabilities :=
          { rootsListChanged := true, sampling := true, elicitation := true }
        clientInfo :=
          { name := "ExampleClient"
            title := "Example Client Display Name"
            version := "1.0.0" } } :=
  C6_lenient_synth_bootstrap emptyState none (JsonRpcBody.otherReq 5)
    (by decide) rfl rfl

/-- C7: the identifier a bootstrapped session is registered under is the
client-supplied identifier when one (truthy and unmatched, in lenient mode)
was supplied, and otherwise a freshly generated, previously unused one; a
POST with no session header creates exactly one new Registry entry under the
fresh identifier — whatever the payload shape. -/
theorem C7_registered_identifier (st : ServerState) (sid : String)
    (body : JsonRpcBody) (h : sid ≠ "")
    (hmiss : lookupReg st.streamable sid = none)
    (hfresh : lookupReg st.streamable (freshUUID st.nextFresh) = none) :
    (handlePost false st (some sid) body true).1.streamable =
      (sid, st.nextTid) :: st.streamable ∧
    (handlePost false st none body true).1.streamable =
      (freshUUID st.nextFresh, st.nextTid) :: st.streamable := by
  constructor <;>
  · cases hb : isInitializeRequest body <;>
      simp [handlePost, jsTruthy, strVal, h, hmiss, hb, setupSession,
        deliver, sessionIdGenerator, onsessioninitialized, insertReg,
        isInitializeRequest_synthesized,
        eraseReg_of_lookup_none _ _ hmiss,
        eraseReg_of_lookup_none _ _ hfresh]

/-- Witness for C7 at the empty state with supplied id "s1". -/
theorem C7_registered_identifier_witness :
    (handlePost false emptyState (some "s1")
      (JsonRpcBody.otherReq 2) true).1.streamable = [("s1", 0)] ∧
    (handlePost false emptyState none
      (JsonRpcBody.otherReq 2) true).1.streamable = [("uuid-0", 0)] :=
  C7_registered_identifier emptyState "s1" (JsonRpcBody.otherReq 2)
    (by decide) rfl rfl

/-- C8: `setupSession` itself never touches the Registry (the insert is done
only by the `onsessioninitialized` completion callback), and when handshake
initialization fails (`ok = false`) a POST leaves the Registry exactly as it
was — no partially-registered session remains, in either client mode, for
any header and payload. -/
theorem C8_registry_insert_only_on_completion (proper404Client : Bool)
    (st : ServerState) (header : Option String) (body : JsonRpcBody) :
    (setupSession st header).1.streamable = st.streamable ∧
    (handlePost proper404Client st header body false).1.streamable =
      st.streamable := by
  refine ⟨rfl, ?_⟩
  unfold handlePost
  rcases hlu : (if jsTruthy header then lookupReg st.streamable (strVal header)
      else none) with _ | tid
  · simp only [hlu]
    split
    · rfl
    · split <;> simp [setupSession, deliver]
  · simp [hlu]
